import Mathlib

/-!
Verification of the `gcolab_pkg` repository: shallow embedding of
`src/packages/util.py` (HelperFunctions) and `src/main.py` (`q`, `send_gchat`)
together with proofs settling the frozen claims C1–C10.

Python floats are modelled as exact rationals (ℚ); Python `int` as ℤ/ℕ.
`float.__format__("{:,.df}")` is modelled by exact decimal rounding
(round-half-to-even) with thousands separators, which agrees with CPython on
all inputs away from binary-representation boundary cases; none of the claims
depend on such a boundary case.
-/

namespace GColab

/-- Characters accepted by the regex class `\s` (ASCII range, which is all the
source ever feeds it). -/
def isPySpace (c : Char) : Bool :=
  c = ' ' || c = '\n' || c = '\t' || c = '\r' || c = '\x0b' || c = '\x0c'

/-- Value of a list of decimal digit characters, most significant first. -/
def natOfDigits (l : List Char) : ℕ :=
  l.foldl (fun a c => a * 10 + (c.toNat - '0'.toNat)) 0

/-- Round a rational to the nearest integer, ties to even — the rounding used
by CPython's fixed-point float formatting. -/
def roundHalfEven (q : ℚ) : ℤ :=
  let f := ⌊q⌋
  let r := q - f
  if r < 1/2 then f
  else if 1/2 < r then f + 1
  else if f % 2 = 0 then f else f + 1

/-- Left-pad a string with zeros to length `n`. -/
def padZeros (s : String) (n : ℕ) : String :=
  String.mk (List.replicate (n - s.length) '0') ++ s

/-- Insert `,` thousands separators into a digit string, as `{:,}` does:
a comma before every group of three digits counted from the right. -/
def groupDigits (s : String) : String :=
  String.mk (groupAux s.data.reverse 0).reverse
where
  groupAux : List Char → ℕ → List Char
    | [], _ => []
    | c :: rest, k =>
      if k = 3 then ',' :: c :: groupAux rest 1 else c :: groupAux rest (k + 1)

/-- Model of the Python format `f"{v:,.{d}f}"` for a finite value `v`:
fixed-point with `d` decimals, round-half-even, thousands separators in the
integer part, sign taken from the (unrounded) value. -/
def formatFixed (v : ℚ) (d : ℕ) : String :=
  let scaled := roundHalfEven (v * (10 : ℚ) ^ d)
  let mag := scaled.natAbs
  let ip := mag / 10 ^ d
  let fp := mag % 10 ^ d
  let sign := if v < 0 then "-" else ""
  if d = 0 then sign ++ groupDigits (toString ip)
  else sign ++ groupDigits (toString ip) ++ "." ++ padZeros (toString fp) d

/-- `len(str(m))` for a nonnegative Python int `m`. -/
def pyDigitLen (m : ℕ) : ℕ :=
  if m = 0 then 1 else Nat.log 10 m + 1

/-- Python slice `s[:k]` (negative `k` counts from the end, clamped). -/
def pyTake (s : String) (k : ℤ) : String :=
  if 0 ≤ k then s.take k.toNat else s.take ((s.length : ℤ) + k).toNat

/-- Python slice `s[k:]` (negative `k` counts from the end, clamped). -/
def pyDrop (s : String) (k : ℤ) : String :=
  if 0 ≤ k then s.drop k.toNat else s.drop ((s.length : ℤ) + k).toNat

/-- The input type of the numeric helpers: a Python value that is a string,
a finite number, `None`, or a float NaN. -/
inductive PyVal where
  | str (s : String)
  | num (q : ℚ)
  | none
  | nan
deriving DecidableEq, Repr

/-- Errors escaping the modelled helpers: `DagError msg`, or exhaustion of the
recursion fuel (modelling Python's unbounded recursion ending in
`RecursionError`). -/
inductive PyErr where
  | dagError (msg : String)
  | typeError (msg : String)
  | outOfFuel
deriving DecidableEq, Repr

/-- Python `str.lstrip("-")`: remove all leading `-`. -/
def lstripDashes (s : String) : String :=
  String.mk (s.data.dropWhile (· = '-'))

/-- Python `str.replace(".", "", 1)`: remove the first `.` only. -/
def removeFirstDot (s : String) : String :=
  String.mk (go s.data)
where
  go : List Char → List Char
    | [] => []
    | c :: rest => if c = '.' then rest else c :: go rest

/-- Python `str.isdigit()` (ASCII digits; the helpers only meet ASCII data). -/
def pyIsDigit (s : String) : Bool :=
  s.length > 0 && s.data.all Char.isDigit

/-- Python `str.replace(",", "")`. -/
def removeCommas (s : String) : String :=
  String.mk (s.data.filter (· ≠ ','))

/-- Model of Python `float(s)` restricted to finite decimal literals:
optional single sign, then digits with at most one dot (at least one digit).
Returns `none` where CPython raises `ValueError`.  (`inf`/`nan` literals and
underscores are not modelled; no claim touches them.) -/
def pyFloatParse (s : String) : Option ℚ :=
  let l := s.data.dropWhile isPySpace
  let l := (l.reverse.dropWhile isPySpace).reverse
  match l with
  | [] => Option.none
  | c :: rest =>
    let (neg, body) :=
      if c = '-' then (true, rest) else if c = '+' then (false, rest) else (false, c :: rest)
    let intDigits := body.takeWhile Char.isDigit
    let afterInt := body.dropWhile Char.isDigit
    match afterInt with
    | [] =>
      if intDigits = [] then Option.none
      else Option.some (ratOf neg (natOfDigits intDigits) 0 0)
    | '.' :: rest2 =>
      let fracDigits := rest2.takeWhile Char.isDigit
      let afterFrac := rest2.dropWhile Char.isDigit
      if afterFrac ≠ [] then Option.none
      else if intDigits = [] ∧ fracDigits = [] then Option.none
      else Option.some (ratOf neg (natOfDigits intDigits) (natOfDigits fracDigits) fracDigits.length)
    | _ => Option.none
where
  /-- `±(ip + fp / 10^fplen)`. -/
  ratOf (neg : Bool) (ip fp : ℕ) (fplen : ℕ) : ℚ :=
    let m : ℚ := (ip : ℚ) + (fp : ℚ) / (10 : ℚ) ^ fplen
    if neg then -m else m

/-- The force-path cleaning `re.sub(r"[^\\d.-]+", "", s)` exactly as written in
the source: the character class contains an ESCAPED BACKSLASH followed by a
literal `d`, so the characters kept are exactly `\`, `d`, `.` and `-`
(real digits are stripped). -/
def forceStrip (s : String) : String :=
  String.mk (s.data.filter (fun c => c = '\\' || c = 'd' || c = '.' || c = '-'))

/-- `HelperFunctions.string_to_number` (util.py:44-72), fuel-indexed because the
`force` branch re-enters the function; `PyErr.outOfFuel` for every fuel value
models the unbounded recursion (which in CPython dies as a `RecursionError`
wrapped into `DagError`). -/
def string_to_number : ℕ → PyVal → Bool → Except PyErr ℚ
  | _, .none, _ => .ok 0
  | _, .nan, _ => .ok 0
  | _, .num q, _ => .ok q
  | fuel, .str x, force =>
    let y := removeCommas x
    if pyIsDigit (removeFirstDot (lstripDashes y)) then
      match pyFloatParse y with
      | Option.some q => .ok q
      | Option.none =>
        .error (.dagError ("Error in string_to_number: could not convert string to float: " ++ y))
    else if force then
      match fuel with
      | 0 => .error .outOfFuel
      | fuel + 1 => string_to_number fuel (.str (forceStrip x)) force
    else
      .error (.dagError ("Error in string_to_number: " ++ x ++ " cannot be interpreted as float."))

/-- The shared tail of the `abs(x) >= 1` branches of `number_to_short_string`
(util.py:177-185): `decimals = 3 - len(str(int(abs(n))))`, then
`f"{plus_sign}{n:,.{decimals}f}{unit}"`; a negative `decimals` makes that
format call raise `ValueError`, caught by the `except` that falls back to
`f"{plus_sign}{x:,.0f}"` on the original unscaled `x` (dropping the unit). -/
def scaled_render (plus_sign : String) (x n : ℚ) (unit : String) : String :=
  let decimals : ℤ := 3 - (pyDigitLen (⌊|n|⌋.toNat) : ℤ)
  if 0 ≤ decimals then plus_sign ++ formatFixed n decimals.toNat ++ unit
  else plus_sign ++ formatFixed x 0

/-- The core of `HelperFunctions.number_to_short_string` (util.py:158-185), for
an already-numeric finite `x`.  `int(log10(abs(x)) * -1 + 3)` for `0 < |x| < 1`
is the truncation of `3 - log10 |x|`, i.e. `3 - ⌈log10 |x|⌉ = 3 - Int.clog 10 |x|`.
A negative computed decimal count makes the Python format call raise
`ValueError`, caught by the `except` that falls back to `f"{x:,.0f}"`. -/
def number_to_short_string (x : ℚ) (has_percent : Bool) (add_plus_sign : Bool) : String :=
  let plus_sign := if add_plus_sign && decide (0 < x) then "+" else ""
  if x = 0 then "0"
  else if |x| < 1 then
    if has_percent then plus_sign ++ formatFixed (x * 100) 1 ++ "%"
    else
      let decimals := (3 - Int.clog 10 |x|).toNat
      plus_sign ++ formatFixed x decimals
  else
    if 1000000 ≤ |x| then scaled_render plus_sign x (x / 1000000) "m"
    else if 1000 ≤ |x| then scaled_render plus_sign x (x / 1000) "k"
    else scaled_render plus_sign x x ""

/-- `HelperFunctions.number_to_short_string` (util.py:142-185) on an arbitrary
input value: a string is first sent through `string_to_number` (whose DagError
propagates), `None`/NaN yield the empty string. -/
def number_to_short_string_val (fuel : ℕ) (x : PyVal) (has_percent add_plus_sign force : Bool) :
    Except PyErr String :=
  match x with
  | .str s =>
    match string_to_number fuel (.str s) force with
    | .ok q => .ok (number_to_short_string q has_percent add_plus_sign)
    | .error e => .error e
  | .none => .ok ""
  | .nan => .ok ""
  | .num q => .ok (number_to_short_string q has_percent add_plus_sign)

/-- `HelperFunctions.format_string` (util.py:74-102). -/
def format_string (x : String) (color : Option String) (bold : Bool) (italic : Bool) : String :=
  let t := x
  let t := if bold then "<b>" ++ t ++ "</b>" else t
  let t := if italic then "<i>" ++ t ++ "</i>" else t
  match color with
  | Option.some c => "<font color=\"" ++ c ++ "\">" ++ t ++ "</font>"
  | Option.none => t

/-- The tail of `colorize_number_html` once `x` is a finite float `q`:
default test `x >= 0`, green/red color pick, short-form rendering, font tag. -/
def colorize_core (q : ℚ) (test : Option Bool) (color_if_true color_if_false : Option String)
    (has_percent add_plus_sign : Bool) : String :=
  let t := test.getD (decide (0 ≤ q))
  let color := if t then color_if_true.getD "#008000" else color_if_false.getD "#FF0000"
  format_string (number_to_short_string q has_percent add_plus_sign) (Option.some color)
    false false

/-- `HelperFunctions.colorize_number_html` (util.py:104-135).  The opening
`float(x)` may raise `ValueError` — caught, returning the input string
unchanged — while a `None` input raises an uncaught `TypeError` (only
`ValueError` is handled).  A float NaN passes `float()`, fails the default
`x >= 0` test and is rendered as the empty string by
`number_to_short_string`. -/
def colorize_number_html (x : PyVal) (test : Option Bool)
    (color_if_true color_if_false : Option String)
    (has_percent add_plus_sign : Bool) : Except PyErr String :=
  match x with
  | .str s =>
    match pyFloatParse s with
    | Option.none => .ok s
    | Option.some q =>
      .ok (colorize_core q test color_if_true color_if_false has_percent add_plus_sign)
  | .num q =>
    .ok (colorize_core q test color_if_true color_if_false has_percent add_plus_sign)
  | .nan =>
    let t := test.getD false
    let color := if t then color_if_true.getD "#008000" else color_if_false.getD "#FF0000"
    .ok (format_string "" (Option.some color) false false)
  | .none => .error (.typeError "float() argument must be a string or a real number, not NoneType")

/-- Dropping a prefix cannot lengthen a list (used for termination below). -/
theorem dropWhile_length_le {α : Type} (p : α → Bool) :
    ∀ l : List α, (l.dropWhile p).length ≤ l.length
  | [] => le_refl _
  | a :: l => by
    rw [List.dropWhile_cons]
    split
    · exact le_trans (dropWhile_length_le p l) (Nat.le_succ _)
    · simp

/-- First pass of `condense_text`: `re.sub(r"\s*\n+\s*", " | ", text)` —
every maximal whitespace run containing at least one newline becomes `" | "`;
whitespace runs without a newline are left alone.  (The recursion is paced by
a fuel argument, initialized to the list length, which every step strictly
dominates: each step consumes at least the head element.) -/
def subNewlineRunsGo : ℕ → List Char → List Char
  | _, [] => []
  | 0, l => l
  | fuel + 1, c :: rest =>
    if isPySpace c then
      let run := c :: rest.takeWhile isPySpace
      let rest' := rest.dropWhile isPySpace
      (if run.contains '\n' then " | ".data else run) ++ subNewlineRunsGo fuel rest'
    else c :: subNewlineRunsGo fuel rest

/-- `re.sub(r"\s*\n+\s*", " | ", text)` on the character list. -/
def subNewlineRuns (l : List Char) : List Char :=
  subNewlineRunsGo l.length l

/-- Second pass: `re.sub(r"\s+", " ", text)` — every maximal whitespace run
becomes a single space.  The boolean tracks whether the previous character was
whitespace. -/
def subSpaceRuns (l : List Char) (inRun : Bool) : List Char :=
  match l with
  | [] => []
  | c :: rest =>
    if isPySpace c then
      if inRun then subSpaceRuns rest true else ' ' :: subSpaceRuns rest true
    else c :: subSpaceRuns rest false

/-- Python `str.strip()`. -/
def pyStrip (l : List Char) : List Char :=
  ((l.dropWhile isPySpace).reverse.dropWhile isPySpace).reverse

/-- Final pass of `condense_text`: `re.sub(rf"(.{{{limit}}}).*", r"\1...", t)`
on a newline-free string.  For `limit ≥ 1` the pattern matches (once, at the
start) exactly when the text has at least `limit` characters, keeping the
first `limit` characters and replacing the rest with `"..."`.  For
`limit = 0` the empty-width group also matches at the end of the string, so
`re.sub` substitutes twice on nonempty input. -/
def regexTruncate (l : List Char) (limit : ℕ) : List Char :=
  if limit = 0 then
    (if l = [] then "...".data else "......".data)
  else if limit ≤ l.length then l.take limit ++ "...".data
  else l

/-- `HelperFunctions.condense_text` (util.py:268-274). -/
def condense_text (text : Option String) (limit : ℕ) : String :=
  let t := match text with | Option.none => "(None)".data | Option.some s => s.data
  let t := pyStrip (subNewlineRuns t)
  let t := pyStrip (subSpaceRuns t false)
  String.mk (regexTruncate t limit)

/-- A Python `datetime.datetime` value as produced by `strptime`. -/
structure PyDatetime where
  year : ℕ
  month : ℕ
  day : ℕ
  hour : ℕ
  minute : ℕ
  second : ℕ
  microsecond : ℕ
deriving DecidableEq, Repr

/-- A `strptime` format directive (the subset used by `parse_datetime`):
a literal character or one of `%Y %m %d %H %M %S %f`. -/
inductive FmtTok where
  | lit (c : Char)
  | ftY | ftm | ftd | ftH | ftM | ftS | ftf
deriving DecidableEq, Repr

/-- Digit value of a char, `10` when not a digit (so comparisons fail). -/
def digitVal (c : Char) : ℕ :=
  if c.isDigit then c.toNat - '0'.toNat else 10

/-- The candidate matches of one directive at the head of the input, in the
order CPython's `_strptime` regex alternation tries them (longest/most
specific first); each candidate is the matched value and the rest of the
input. -/
def tokCands : FmtTok → List Char → List (ℕ × List Char)
  | .lit c, l =>
    match l with
    | c' :: rest => if c = c' then [(0, rest)] else []
    | [] => []
  | .ftY, l =>
    -- (?P<Y>\d\d\d\d)
    match l with
    | a :: b :: c :: d :: rest =>
      if a.isDigit && b.isDigit && c.isDigit && d.isDigit then
        [(natOfDigits [a, b, c, d], rest)]
      else []
    | _ => []
  | .ftm, l =>
    -- (?P<m>1[0-2]|0[1-9]|[1-9])
    (match l with
      | a :: b :: rest =>
        if a = '1' && b.isDigit && digitVal b ≤ 2 then [(10 + digitVal b, rest)]
        else if a = '0' && b.isDigit && 1 ≤ digitVal b then [(digitVal b, rest)]
        else []
      | _ => []) ++
    (match l with
      | a :: rest => if a.isDigit && 1 ≤ digitVal a then [(digitVal a, rest)] else []
      | _ => [])
  | .ftd, l =>
    -- (?P<d>3[01]|[12]\d|0[1-9]|[1-9])
    (match l with
      | a :: b :: rest =>
        if a = '3' && digitVal b ≤ 1 then [(30 + digitVal b, rest)]
        else if (a = '1' || a = '2') && b.isDigit then [(digitVal a * 10 + digitVal b, rest)]
        else if a = '0' && b.isDigit && 1 ≤ digitVal b then [(digitVal b, rest)]
        else []
      | _ => []) ++
    (match l with
      | a :: rest => if a.isDigit && 1 ≤ digitVal a then [(digitVal a, rest)] else []
      | _ => [])
  | .ftH, l =>
    -- (?P<H>2[0-3]|[0-1]\d|\d)
    (match l with
      | a :: b :: rest =>
        if a = '2' && digitVal b ≤ 3 then [(20 + digitVal b, rest)]
        else if (a = '0' || a = '1') && b.isDigit then [(digitVal a * 10 + digitVal b, rest)]
        else []
      | _ => []) ++
    (match l with
      | a :: rest => if a.isDigit then [(digitVal a, rest)] else []
      | _ => [])
  | .ftM, l =>
    -- (?P<M>[0-5]\d|\d)
    (match l with
      | a :: b :: rest =>
        if a.isDigit && digitVal a ≤ 5 && b.isDigit then [(digitVal a * 10 + digitVal b, rest)]
        else []
      | _ => []) ++
    (match l with
      | a :: rest => if a.isDigit then [(digitVal a, rest)] else []
      | _ => [])
  | .ftS, l =>
    -- (?P<S>6[0-1]|[0-5]\d|\d)
    (match l with
      | a :: b :: rest =>
        if a = '6' && digitVal b ≤ 1 then [(60 + digitVal b, rest)]
        else if a.isDigit && digitVal a ≤ 5 && b.isDigit then [(digitVal a * 10 + digitVal b, rest)]
        else []
      | _ => []) ++
    (match l with
      | a :: rest => if a.isDigit then [(digitVal a, rest)] else []
      | _ => [])
  | .ftf, l =>
    -- (?P<f>[0-9]{1,6}), greedy: longest first
    ([6, 5, 4, 3, 2, 1].filterMap fun k =>
      let ds := l.take k
      if ds.length = k ∧ ds.all Char.isDigit then
        Option.some (natOfDigits ds * 10 ^ (6 - k), l.drop k)
      else Option.none)

/-- Regex matching of a directive sequence against the whole input, with
backtracking across the alternation candidates; mirrors `_strptime`'s single
compiled regex together with its full-consumption check. -/
def matchSeq : List FmtTok → List Char → Option (List (FmtTok × ℕ))
  | [], input => if input.isEmpty then Option.some [] else Option.none
  | t :: ts, input =>
    (tokCands t input).findSome? fun vr =>
      (matchSeq ts vr.2).map fun r => (t, vr.1) :: r
termination_by ts _ => ts.length
decreasing_by simp

/-- Days in a month of the (proleptic Gregorian) calendar. -/
def daysInMonth (y m : ℕ) : ℕ :=
  if m = 2 then (if y % 4 = 0 ∧ (y % 100 ≠ 0 ∨ y % 400 = 0) then 29 else 28)
  else if m = 4 ∨ m = 6 ∨ m = 9 ∨ m = 11 then 30
  else 31

/-- `datetime.strptime(s, fmt)` for one directive list: match, then build the
datetime with `_strptime` defaults (year 1900, month 1, day 1) and the
validation the `datetime` constructor performs. -/
def getField (fields : List (FmtTok × ℕ)) (t : FmtTok) (dflt : ℕ) : ℕ :=
  match fields.find? (fun p => p.1 = t) with
  | Option.some p => p.2
  | Option.none => dflt

/-- `datetime.strptime(s, fmt)` continued: build the datetime with
`_strptime` defaults (year 1900, month 1, day 1) and the validation the
`datetime` constructor performs. -/
def strptime (fmt : List FmtTok) (s : String) : Option PyDatetime :=
  match matchSeq fmt s.data with
  | Option.none => Option.none
  | Option.some fields =>
    let y := getField fields .ftY 1900
    let mo := getField fields .ftm 1
    let d := getField fields .ftd 1
    let h := getField fields .ftH 0
    let mi := getField fields .ftM 0
    let sec := getField fields .ftS 0
    let us := getField fields .ftf 0
    if 1 ≤ y ∧ d ≤ daysInMonth y mo ∧ sec ≤ 59 then
      Option.some ⟨y, mo, d, h, mi, sec, us⟩
    else Option.none

/-- The ten format strings tried by `parse_datetime`, in source order
(util.py:250-261), as directive lists. -/
def parseFormats : List (List FmtTok) :=
  [ [.ftY, .lit '-', .ftm, .lit '-', .ftd],
    [.ftY, .lit '-', .ftm, .lit '-', .ftd, .lit ' ', .ftH, .lit ':', .ftM, .lit ':', .ftS],
    [.ftY, .lit '-', .ftm, .lit '-', .ftd, .lit 'T', .ftH, .lit ':', .ftM, .lit ':', .ftS],
    [.ftY, .lit '-', .ftm, .lit '-', .ftd, .lit ' ', .ftH, .lit ':', .ftM],
    [.ftY, .lit '-', .ftm, .lit '-', .ftd, .lit 'T', .ftH, .lit ':', .ftM],
    [.ftY, .lit '-', .ftm, .lit '-', .ftd, .lit ' ', .ftH, .lit ':', .ftM, .lit ':', .ftS,
      .lit '.', .ftf],
    [.ftY, .lit '-', .ftm, .lit '-', .ftd, .lit 'T', .ftH, .lit ':', .ftM, .lit ':', .ftS,
      .lit '.', .ftf],
    [.ftY, .ftm, .ftd],
    [.ftY, .ftm, .ftd, .lit '_', .ftH, .ftM],
    [.ftY, .ftm, .ftd, .lit '_', .ftH, .ftM, .ftS] ]

/-- Input to `parse_datetime`: already a datetime, or a string. -/
inductive DtInput where
  | dt (d : PyDatetime)
  | str (s : String)
deriving DecidableEq, Repr

/-- `HelperFunctions.parse_datetime` (util.py:240-266): a datetime input is
returned unchanged; a string is tried against each format in order, the first
successful parse is returned; if none matches the function falls off the end
(Python implicitly returns `None`). -/
def parse_datetime : DtInput → Option PyDatetime
  | .dt d => Option.some d
  | .str s => parseFormats.findSome? fun fmt => strptime fmt s

/-! ## `src/main.py` -/

/-- The shape of a completed BigQuery job as `q` consumes it (spec §6): error
messages (empty list when the job succeeded — Python's truthiness test on
`result.errors`), destination table, DDL target table, DML stats, and the
materialized result set (`to_dataframe()`), abstracted over the row type. -/
structure QueryResult (α : Type) where
  errors : List String
  destination : Option String
  ddl_target_table : Option String
  dml_stats : Option String
  dataframe : α
deriving DecidableEq, Repr

/-- What `q` does after the polling loop: either raises (with the printed
excerpt lines recorded) or returns the resolved destination, the displayed
DML stats and the DataFrame. -/
inductive QOutcome (α : Type) where
  | failure (raised : String) (excerpt : List String)
  | success (destination : Option String) (dml_stats : Option String) (df : α)
deriving DecidableEq, Repr

/-- Try to read `[<digits>:<digits>]` at the head of the input (the regex
`\[(\d+):(\d+)\]`; the greedy `\d+` followed by a forced `:`/`]` is equivalent
to taking the maximal digit run). -/
def parseBracketAt (l : List Char) : Option (ℕ × ℕ) :=
  match l with
  | '[' :: rest =>
    let ds := rest.takeWhile Char.isDigit
    if ds.isEmpty then Option.none
    else
      match rest.dropWhile Char.isDigit with
      | ':' :: rest2 =>
        let ds2 := rest2.takeWhile Char.isDigit
        if ds2.isEmpty then Option.none
        else
          match rest2.dropWhile Char.isDigit with
          | ']' :: _ => Option.some (natOfDigits ds, natOfDigits ds2)
          | _ => Option.none
      | _ => Option.none
  | _ => Option.none

/-- `re.search(r"\[(\d+):(\d+)\]", s)`: first match, scanning left to right. -/
def findBracket : List Char → Option (ℕ × ℕ)
  | [] => Option.none
  | c :: rest =>
    match parseBracketAt (c :: rest) with
    | Option.some p => Option.some p
    | Option.none => findBracket rest

/-- Python `str.split` with the single-character separator `"\n"`, keeping
empty pieces, on the character list (structural; equals `"\n".split` of
CPython). -/
def pySplit : List Char → List (List Char)
  | [] => [[]]
  | c :: rest =>
    match pySplit rest with
    | [] => [[c]]
    | h :: t => if c = '\n' then [] :: h :: t else (c :: h) :: t

/-- `query.split("\n")` as a list of line strings. -/
def pyLines (s : String) : List String :=
  (pySplit s.data).map String.mk

/-- One printed excerpt line (main.py:66-73): `f"{i+1}: {line}"`, where the
reported line `ln` is split at 1-based column `pn` with the remainder wrapped
in the ANSI red escape (`line[:pn-1]` / `line[pn-1:]`, Python slices). -/
def renderLine (i1 : ℕ) (line : String) (ln pn : ℕ) : String :=
  if i1 = ln then
    toString i1 ++ ": " ++ pyTake line ((pn : ℤ) - 1) ++ "\x1b[31m" ++
      pyDrop line ((pn : ℤ) - 1) ++ "\x1b[0m"
  else toString i1 ++ ": " ++ line

/-- The excerpt loop (main.py:65-73): enumerate `query.split("\n")` and print
the lines whose 1-based number `i+1` satisfies `ln - 5 <= i+1 < ln + 6`.
(`i+1 ≥ 1`, so the ℕ-truncated `ln - 5` agrees with Python's int compare.) -/
def excerptLines (query : String) (ln pn : ℕ) : List String :=
  (pyLines query).enum.filterMap fun p =>
    if ln - 5 ≤ p.1 + 1 ∧ p.1 + 1 < ln + 6 then
      Option.some (renderLine (p.1 + 1) p.2 ln pn)
    else Option.none

/-- `q` (main.py:33-85) after completion: on errors, join all messages with
newlines, print the excerpt when the first message contains `[line:col]`, and
raise; otherwise display the destination — `result.destination` if
`result.ddl_target_table is None` else the DDL target — and return the
DataFrame. -/
def q_outcome {α : Type} (query : String) (r : QueryResult α) : QOutcome α :=
  if r.errors.isEmpty then
    let destination :=
      match r.ddl_target_table with
      | Option.none => r.destination
      | Option.some t => Option.some t
    .success destination r.dml_stats r.dataframe
  else
    let error_messages := String.intercalate "\n" r.errors
    let excerpt :=
      match findBracket (r.errors.headD "").data with
      | Option.some lp => excerptLines query lp.1 lp.2
      | Option.none => []
    .failure error_messages excerpt

/-- `json.dumps({"text": m})` for the payload, with the standard JSON string
escapes (ASCII range; sufficient for the modelled inputs). -/
def jsonDumpsText (m : String) : String :=
  "\x7b\"text\": \"" ++ String.mk (m.data.flatMap escape) ++ "\"\x7d"
where
  escape (c : Char) : List Char :=
    if c = '\\' then ['\\', '\\']
    else if c = '"' then ['\\', '"']
    else if c = '\n' then ['\\', 'n']
    else if c = '\r' then ['\\', 'r']
    else if c = '\t' then ['\\', 't']
    else [c]

/-- `send_gchat` (main.py:88-110), with the HTTP POST abstracted as a function
from the request body to `(status_code, response_text)`: compose the message
with the footer (defaulting to the synthesized user/timestamp footer), post
the JSON payload, raise iff the status is 400 (embedding the response body),
otherwise return the response body. -/
def send_gchat (message : String) (footer : Option String) (default_footer : String)
    (post : String → ℕ × String) : Except String String :=
  let f := footer.getD default_footer
  let full := message ++ "\n\n" ++ f
  let data := jsonDumpsText full
  let resp := post data
  if resp.1 = 400 then .error ("Error sending message: " ++ resp.2)
  else .ok resp.2

/-! ## Evaluation helpers -/

/-- Rounding an integer value is the identity. -/
theorem roundHalfEven_intCast (n : ℤ) : roundHalfEven (n : ℚ) = n := by
  unfold roundHalfEven
  rw [Int.floor_intCast]
  norm_num

/-- Closed form of `formatFixed` when the scaled value is the natural number
`n` and the input is nonnegative (covers every concrete rendering needed
below). -/
theorem formatFixed_int (v : ℚ) (d : ℕ) (n : ℕ) (hv : ¬ v < 0) (h : v * 10 ^ d = (n : ℚ)) :
    formatFixed v d =
      (if d = 0 then groupDigits (toString (n / 10 ^ d))
       else groupDigits (toString (n / 10 ^ d)) ++ "." ++ padZeros (toString (n % 10 ^ d)) d) := by
  simp only [formatFixed, h]
  rw [show ((n : ℕ) : ℚ) = ((n : ℤ) : ℚ) by push_cast; ring, roundHalfEven_intCast,
    if_neg hv]
  simp

/-! ## Claims -/

/-- C9: `number_to_short_string(0)` returns exactly `"0"` for every
combination of the sign-display (`add_plus_sign`) and percent (`has_percent`)
flags. -/
theorem c9_zero_always_formats_to_zero_string :
    ∀ (has_percent add_plus_sign : Bool),
      number_to_short_string 0 has_percent add_plus_sign = "0" := by
  decide

/-- C10: an input that is already a datetime object is returned unchanged by
`parse_datetime`, without attempting any of the string format patterns. -/
theorem c10_parse_datetime_identity_on_datetime :
    ∀ d : PyDatetime, parse_datetime (.dt d) = Option.some d :=
  fun _ => rfl

/-- C8: `send_gchat` raises a failure embedding the response body if and only
if the webhook responds with HTTP 400; for every other status it returns the
raw response body unchanged. -/
theorem c8_send_gchat_raises_iff_400 (message : String) (footer : Option String)
    (default_footer : String) (status : ℕ) (body : String) :
    (send_gchat message footer default_footer (fun _ => (status, body)) =
        .error ("Error sending message: " ++ body) ↔ status = 400) ∧
    (status ≠ 400 →
      send_gchat message footer default_footer (fun _ => (status, body)) = .ok body) := by
  unfold send_gchat
  by_cases h : status = 400 <;> simp [h]

/-- Witness for C8 at HTTP 400 and HTTP 200. -/
theorem c8_send_gchat_witness :
    send_gchat "hi" Option.none "footer" (fun _ => (400, "bad request")) =
      .error ("Error sending message: " ++ "bad request") ∧
    send_gchat "hi" Option.none "footer" (fun _ => (200, "ok-body")) = .ok "ok-body" :=
  ⟨(c8_send_gchat_raises_iff_400 "hi" Option.none "footer" 400 "bad request").1.mpr rfl,
   (c8_send_gchat_raises_iff_400 "hi" Option.none "footer" 200 "ok-body").2 (by decide)⟩

/-- The force-path of `string_to_number` loops on the empty string: the
cleaning regex keeps `""` unchanged, `"".isdigit()` is false, and the function
re-enters itself with the same argument, for every amount of fuel. -/
theorem string_to_number_empty_force_loops :
    ∀ fuel, string_to_number fuel (.str "") true = .error .outOfFuel
  | 0 => rfl
  | fuel + 1 => string_to_number_empty_force_loops fuel

/-- C3 (code bug): `string_to_number("1,234")` is `1234.0` and `"abc"` raises
without `force`; but with `force=True` the cleaning regex `r"[^\\d.-]+"`
(escaped backslash: it keeps only `\`, `d`, `.`, `-` and strips real digits)
reduces `"abc"` to `""` and the retry recurses on itself forever — the
conversion never succeeds for any recursion depth, contradicting both the
claim and the function's own docstring. -/
theorem c3_string_to_number_force_never_succeeds :
    (∀ fuel, string_to_number fuel (.str "1,234") false = .ok 1234) ∧
    (∀ fuel, (string_to_number fuel (.str "abc") false).toOption = Option.none) ∧
    (∀ fuel, (string_to_number fuel (.str "abc") true).toOption = Option.none) := by
  have hp : pyFloatParse "1234" = Option.some 1234 := by
    show Option.some (pyFloatParse.ratOf false 1234 0 0) = Option.some 1234
    unfold pyFloatParse.ratOf
    norm_num
  refine ⟨fun fuel => ?_, fun fuel => by cases fuel <;> rfl, fun fuel => ?_⟩
  · have step : string_to_number fuel (.str "1,234") false =
        (match pyFloatParse "1234" with
         | Option.some q => (.ok q : Except PyErr ℚ)
         | Option.none => .error (.dagError
             ("Error in string_to_number: could not convert string to float: " ++ "1234"))) := by
      cases fuel <;> rfl
    rw [step, hp]
  match fuel with
  | 0 => rfl
  | fuel + 1 =>
    show (string_to_number fuel (.str "") true).toOption = Option.none
    rw [string_to_number_empty_force_loops fuel]
    rfl

/-- C2 counterexample: `number_to_short_string("abc")` (default `force=False`)
propagates a `DagError` from `string_to_number` instead of degrading — numeric
formatting CAN raise. -/
theorem c2_counterexample_number_to_short_string_raises :
    number_to_short_string_val 100 (.str "abc") true false false =
      .error (.dagError ("Error in string_to_number: abc cannot be interpreted as float.")) :=
  rfl

/-- C1 counterexample: `number_to_short_string(1_000_000_000)` computes
`decimals = 3 - len(str(1000)) = -1`, the format call raises `ValueError`, and
the fallback returns the zero-decimal unscaled value `"1,000,000,000"` — which
does not end with `"m"`. -/
theorem c1_counterexample_billion_has_no_m_suffix :
    number_to_short_string 1000000000 true false = "1,000,000,000" ∧
    "1,000,000,000".data.getLast? = Option.some '0' ∧
    (decide ("1,000,000,000".data.getLast? = Option.some 'm')) = false := by
  refine ⟨?_, rfl, rfl⟩
  simp only [number_to_short_string]
  rw [if_neg (by norm_num : ¬ (1000000000 : ℚ) = 0),
    if_neg (by norm_num : ¬ |(1000000000 : ℚ)| < 1),
    if_pos (by norm_num : (1000000 : ℚ) ≤ |(1000000000 : ℚ)|)]
  simp only [scaled_render]
  rw [show (⌊|(1000000000 : ℚ) / 1000000|⌋.toNat) = 1000 by
    rw [show |(1000000000 : ℚ) / 1000000| = ((1000 : ℕ) : ℚ) by norm_num, Int.floor_natCast]
    rfl]
  rw [show pyDigitLen 1000 = 4 by norm_num [pyDigitLen, Nat.log]]
  rw [if_neg (by norm_num : ¬ (0 : ℤ) ≤ 3 - (4 : ℕ))]
  rw [formatFixed_int 1000000000 0 1000000000 (by norm_num) (by norm_num)]
  rfl

/-- When the scaled magnitude lies in `[1, 1000)`, its integer part has at
most 3 digits, the decimal count is nonnegative, and the unit suffix is
emitted. -/
theorem scaled_render_unit (p : String) (x n : ℚ) (u : String)
    (h1 : 1 ≤ n) (h2 : n < 1000) :
    ∃ t, scaled_render p x n u = t ++ u := by
  have hfl0 : 1 ≤ ⌊n⌋ := Int.le_floor.mpr (by exact_mod_cast h1)
  have hfl : ⌊n⌋ < 1000 := Int.floor_lt.mpr (by exact_mod_cast h2)
  have habs : |n| = n := abs_of_pos (by linarith)
  have hm0 : ⌊|n|⌋.toNat ≠ 0 := by rw [habs]; omega
  have h1000 : ⌊|n|⌋.toNat < 10 ^ 3 := by
    have hp3 : (10 : ℕ) ^ 3 = 1000 := by norm_num
    rw [habs]
    omega
  have hlog : Nat.log 10 (⌊|n|⌋.toNat) < 3 :=
    (Nat.lt_pow_iff_log_lt (by norm_num) hm0).mp h1000
  have hdl : (pyDigitLen (⌊|n|⌋.toNat) : ℤ) ≤ 3 := by
    unfold pyDigitLen
    rw [if_neg hm0]
    push_cast
    omega
  unfold scaled_render
  rw [if_pos (by omega : (0 : ℤ) ≤ 3 - (pyDigitLen (⌊|n|⌋.toNat) : ℤ))]
  exact ⟨_, rfl⟩

/-- When the scaled magnitude is at least 1000, its integer part has at least
4 digits, the decimal count is negative, the format call raises and the
fallback formats the unscaled value with no suffix. -/
theorem scaled_render_fallback (p : String) (x n : ℚ) (u : String) (h1 : 1000 ≤ n) :
    scaled_render p x n u = p ++ formatFixed x 0 := by
  have hfl : 1000 ≤ ⌊n⌋ := Int.le_floor.mpr (by exact_mod_cast h1)
  have habs : |n| = n := abs_of_pos (by linarith)
  have hm : 1000 ≤ ⌊|n|⌋.toNat := by rw [habs]; omega
  have hm0 : ⌊|n|⌋.toNat ≠ 0 := by omega
  have h1000 : 10 ^ 3 ≤ ⌊|n|⌋.toNat := by
    have hp3 : (10 : ℕ) ^ 3 = 1000 := by norm_num
    omega
  have hlog : 3 ≤ Nat.log 10 (⌊|n|⌋.toNat) :=
    (Nat.pow_le_iff_le_log (by norm_num) hm0).mp h1000
  have hdl : 4 ≤ (pyDigitLen (⌊|n|⌋.toNat) : ℤ) := by
    unfold pyDigitLen
    rw [if_neg hm0]
    push_cast
    omega
  unfold scaled_render
  rw [if_neg (by omega : ¬ (0 : ℤ) ≤ 3 - (pyDigitLen (⌊|n|⌋.toNat) : ℤ))]

/-- C1 amended: for `1_000_000 ≤ x < 1_000_000_000` the output ends with
`"m"`; for `1_000 ≤ x < 1_000_000` it ends with `"k"`; for
`x ≥ 1_000_000_000` the computed decimal count is negative (invalid) and the
function falls back to zero-decimal formatting of the original unscaled
value, without a unit suffix. -/
theorem c1_amended_suffixes_below_billion (x : ℚ) (hp ap : Bool) :
    (1000000 ≤ x → x < 1000000000 →
      ∃ t, number_to_short_string x hp ap = t ++ "m") ∧
    (1000 ≤ x → x < 1000000 →
      ∃ t, number_to_short_string x hp ap = t ++ "k") ∧
    (1000000000 ≤ x →
      number_to_short_string x hp ap =
        (if ap && decide (0 < x) then "+" else "") ++ formatFixed x 0) := by
  refine ⟨fun h1 h2 => ?_, fun h1 h2 => ?_, fun h1 => ?_⟩
  · have hxpos : (0 : ℚ) < x := by linarith
    have habs : |x| = x := abs_of_pos hxpos
    simp only [number_to_short_string, habs]
    rw [if_neg (ne_of_gt hxpos), if_neg (by linarith : ¬ x < 1), if_pos h1]
    exact scaled_render_unit _ x (x / 1000000) "m"
      (by rw [le_div_iff (by norm_num)]; linarith)
      (by rw [div_lt_iff (by norm_num)]; linarith)
  · have hxpos : (0 : ℚ) < x := by linarith
    have habs : |x| = x := abs_of_pos hxpos
    simp only [number_to_short_string, habs]
    rw [if_neg (ne_of_gt hxpos), if_neg (by linarith : ¬ x < 1),
      if_neg (by linarith : ¬ (1000000 : ℚ) ≤ x), if_pos h1]
    exact scaled_render_unit _ x (x / 1000) "k"
      (by rw [le_div_iff (by norm_num)]; linarith)
      (by rw [div_lt_iff (by norm_num)]; linarith)
  · have hxpos : (0 : ℚ) < x := by linarith
    have habs : |x| = x := abs_of_pos hxpos
    simp only [number_to_short_string, habs]
    rw [if_neg (ne_of_gt hxpos), if_neg (by linarith : ¬ x < 1),
      if_pos (by linarith : (1000000 : ℚ) ≤ x)]
    exact scaled_render_fallback _ x (x / 1000000) "m"
      (by rw [le_div_iff (by norm_num)]; linarith)

/-- Witness for C1 at 2.5 million (`"m"`), 5000 (`"k"`) and one billion
(fallback). -/
theorem c1_amended_witness :
    (∃ t, number_to_short_string 2500000 true false = t ++ "m") ∧
    (∃ t, number_to_short_string 5000 true false = t ++ "k") ∧
    number_to_short_string 1000000000 true false =
      (if false && decide ((0 : ℚ) < 1000000000) then "+" else "") ++
        formatFixed 1000000000 0 :=
  ⟨(c1_amended_suffixes_below_billion 2500000 true false).1 (by norm_num) (by norm_num),
   (c1_amended_suffixes_below_billion 5000 true false).2.1 (by norm_num) (by norm_num),
   (c1_amended_suffixes_below_billion 1000000000 true false).2.2 (by norm_num)⟩

/-- C4 counterexample: a completed job carrying BOTH a destination table `"T"`
and a DDL target table `"D"` is displayed with the DDL target `"D"` — the
code prefers `ddl_target_table` whenever it is non-null, not the destination. -/
theorem c4_counterexample_ddl_target_preferred :
    q_outcome "SELECT 1"
        ({ errors := [], destination := Option.some "T",
           ddl_target_table := Option.some "D", dml_stats := Option.none,
           dataframe := 7 } : QueryResult ℕ) =
      QOutcome.success (Option.some "D") Option.none 7 ∧
    (decide (q_outcome "SELECT 1"
        ({ errors := [], destination := Option.some "T",
           ddl_target_table := Option.some "D", dml_stats := Option.none,
           dataframe := 7 } : QueryResult ℕ) =
      QOutcome.success (Option.some "T") Option.none 7)) = false := by
  constructor
  · rfl
  · rfl

/-- C2 amended: `colorize_number_html` never raises — an unparseable string is
returned unchanged — and `number_to_short_string` degrades `None`/NaN to the
empty string; but a non-numeric string makes `number_to_short_string` raise
`DagError` (via `string_to_number`) rather than degrade. -/
theorem c2_amended_formatting_failure_modes :
    (∀ s : String, pyFloatParse s = Option.none →
      ∀ (test : Option Bool) (ct cf : Option String) (hp ap : Bool),
        colorize_number_html (.str s) test ct cf hp ap = .ok s) ∧
    (∀ (fuel : ℕ) (hp ap force : Bool),
      number_to_short_string_val fuel .none hp ap force = .ok "" ∧
      number_to_short_string_val fuel .nan hp ap force = .ok "") ∧
    (∀ (fuel : ℕ) (hp ap : Bool),
      (number_to_short_string_val fuel (.str "abc") hp ap false).toOption = Option.none) := by
  refine ⟨fun s h test ct cf hp ap => ?_, fun fuel hp ap force => ⟨rfl, rfl⟩,
    fun fuel hp ap => ?_⟩
  · simp [colorize_number_html, h]
  · show (match string_to_number fuel (.str "abc") false with
      | .ok q => (.ok (number_to_short_string q hp ap) : Except PyErr String)
      | .error e => .error e).toOption = Option.none
    rw [show string_to_number fuel (.str "abc") false =
      .error (.dagError ("Error in string_to_number: abc cannot be interpreted as float."))
      from by cases fuel <;> rfl]
    rfl

/-- Witness for C2 at the unparseable string `"abc"` and at `None`. -/
theorem c2_amended_witness :
    colorize_number_html (.str "abc") Option.none Option.none Option.none true false =
      .ok "abc" ∧
    number_to_short_string_val 7 .none true false false = .ok "" ∧
    (number_to_short_string_val 7 (.str "abc") true false false).toOption = Option.none :=
  ⟨c2_amended_formatting_failure_modes.1 "abc" rfl Option.none Option.none Option.none true false,
   (c2_amended_formatting_failure_modes.2.1 7 true false false).1,
   c2_amended_formatting_failure_modes.2.2 7 true false⟩

/-- C4 amended: on completion without errors, `q` prefers the DDL target table
whenever it is present; only when `ddl_target_table` is null does it display
the job's destination; in both cases the full result set is returned as the
DataFrame. -/
theorem c4_amended_ddl_target_preferred {α : Type} (query : String) (r : QueryResult α)
    (h : r.errors = []) :
    (r.ddl_target_table = Option.none →
      q_outcome query r = .success r.destination r.dml_stats r.dataframe) ∧
    (∀ t, r.ddl_target_table = Option.some t →
      q_outcome query r = .success (Option.some t) r.dml_stats r.dataframe) := by
  have hne : r.errors.isEmpty = true := by rw [h]; rfl
  refine ⟨fun hd => ?_, fun t hd => ?_⟩ <;> simp [q_outcome, hne, hd]

/-- Witness for C4 with and without a DDL target. -/
theorem c4_amended_witness :
    q_outcome "SELECT 1"
        ({ errors := [], destination := Option.some "T", ddl_target_table := Option.none,
           dml_stats := Option.none, dataframe := 1 } : QueryResult ℕ) =
      QOutcome.success (Option.some "T") Option.none 1 ∧
    q_outcome "CREATE TABLE D"
        ({ errors := [], destination := Option.some "T", ddl_target_table := Option.some "D",
           dml_stats := Option.none, dataframe := 2 } : QueryResult ℕ) =
      QOutcome.success (Option.some "D") Option.none 2 :=
  ⟨(c4_amended_ddl_target_preferred "SELECT 1" _ rfl).1 rfl,
   (c4_amended_ddl_target_preferred "CREATE TABLE D" _ rfl).2 "D" rfl⟩

/-- The decimal count for `0 < |x| < 1` exactly as the spec sentence words it:
`floor(log10(|x|)) * -1 + 3` (`Int.log` is the floor of the base-10 logarithm
on positive rationals).  Written from the spec for comparison with the
source-derived computation; the source computes `int(log10(abs(x)) * -1 + 3)`
instead, i.e. the truncation of `3 - log10 |x|`. -/
def c5_spec_decimals (x : ℚ) : ℤ :=
  Int.log 10 |x| * (-1) + 3

/-- C5 counterexample: at `x = 0.5` the spec formula demands
`floor(log10 0.5) * -1 + 3 = 4` decimals (`"0.5000"`), but the code computes
`int(-log10 0.5 + 3) = 3` and renders `"0.500"`. -/
theorem c5_counterexample_decimals_formula_off_by_one :
    c5_spec_decimals (1/2) = 4 ∧
    number_to_short_string (1/2) false false = "0.500" ∧
    formatFixed (1/2) 4 = "0.5000" ∧
    (decide (("0.500" : String) = "0.5000")) = false := by
  have habs : |(1/2 : ℚ)| = 1/2 := by norm_num
  refine ⟨?_, ?_, ?_, rfl⟩
  · unfold c5_spec_decimals
    rw [habs, Int.log_of_right_le_one 10 (by norm_num)]
    rw [show ⌈((1/2 : ℚ)⁻¹)⌉₊ = 2 by norm_num]
    rw [show Nat.clog 10 2 = 1 by norm_num [Nat.clog]]
    norm_num
  · simp only [number_to_short_string]
    rw [if_neg (by norm_num : ¬ (1/2 : ℚ) = 0),
      if_pos (by rw [habs]; norm_num : |(1/2 : ℚ)| < 1)]
    rw [habs, Int.clog_of_right_le_one 10 (by norm_num)]
    rw [show ⌊((1/2 : ℚ)⁻¹)⌋₊ = 2 by norm_num]
    rw [show Nat.log 10 2 = 0 by norm_num [Nat.log]]
    norm_num
    rw [show Int.toNat 3 = 3 from rfl,
      formatFixed_int (1/2) 3 500 (by norm_num) (by norm_num)]
    rfl
  · rw [formatFixed_int (1/2) 4 5000 (by norm_num) (by norm_num)]
    rfl

/-- C5 amended: for `0 < |x| < 1`, percent mode renders `x*100` with 1 decimal
place and a trailing `%`; otherwise the value is rendered with `d` decimal
places where `d ≥ 3` is characterized by `10^(2-d) < |x| ≤ 10^(3-d)` — the
truncation of `-log10|x| + 3`, i.e. `3 - ⌈log10 |x|⌉`, one LESS than the
spec's `floor(log10|x|)*-1 + 3` whenever `|x|` is not a power of ten. -/
theorem c5_amended_small_magnitude_rendering (x : ℚ) (ap : Bool)
    (hx : x ≠ 0) (hlt : |x| < 1) :
    (number_to_short_string x true ap =
      (if ap && decide (0 < x) then "+" else "") ++ formatFixed (x * 100) 1 ++ "%") ∧
    (∃ d : ℕ, 3 ≤ d ∧
      |x| ≤ ((10 : ℕ) : ℚ) ^ ((3 : ℤ) - d) ∧ ((10 : ℕ) : ℚ) ^ ((2 : ℤ) - d) < |x| ∧
      number_to_short_string x false ap =
        (if ap && decide (0 < x) then "+" else "") ++ formatFixed x d) := by
  have habs : 0 < |x| := abs_pos.mpr hx
  have hcl : Int.clog 10 |x| ≤ 0 := by
    calc Int.clog 10 |x| ≤ Int.clog 10 1 := Int.clog_mono_right habs (le_of_lt hlt)
    _ = 0 := Int.clog_one_right 10
  constructor
  · simp only [number_to_short_string]
    rw [if_neg hx, if_pos hlt]
    simp
  · refine ⟨(3 - Int.clog 10 |x|).toNat, by omega, ?_, ?_, ?_⟩
    · rw [show ((3 : ℤ) - ((3 - Int.clog 10 |x|).toNat : ℤ)) = Int.clog 10 |x| by omega]
      exact Int.self_le_zpow_clog (by norm_num) |x|
    · rw [show ((2 : ℤ) - ((3 - Int.clog 10 |x|).toNat : ℤ)) = Int.clog 10 |x| - 1 by omega]
      exact Int.zpow_pred_clog_lt_self (by norm_num) habs
    · simp only [number_to_short_string]
      rw [if_neg hx, if_pos hlt]
      simp

/-- Witness for C5 at `x = 0.5`: percent mode gives exactly `"50.0%"`, and the
non-percent rendering uses 3 decimals (`"0.500"`), bounded by
`10^(-1) < 0.5 ≤ 10^0`. -/
theorem c5_amended_witness :
    number_to_short_string (1/2) true false = "50.0%" ∧
    (∃ d : ℕ, 3 ≤ d ∧
      |(1/2 : ℚ)| ≤ ((10 : ℕ) : ℚ) ^ ((3 : ℤ) - d) ∧
      ((10 : ℕ) : ℚ) ^ ((2 : ℤ) - d) < |(1/2 : ℚ)| ∧
      number_to_short_string (1/2) false false =
        (if false && decide ((0 : ℚ) < 1/2) then "+" else "") ++ formatFixed (1/2) d) := by
  constructor
  · have h := (c5_amended_small_magnitude_rendering (1/2) false (by norm_num)
      (by rw [abs_of_pos (by norm_num : (0:ℚ) < 1/2)]; norm_num)).1
    rw [h, formatFixed_int ((1/2 : ℚ) * 100) 1 500 (by norm_num) (by norm_num)]
    rfl
  · exact (c5_amended_small_magnitude_rendering (1/2) false (by norm_num)
      (by rw [abs_of_pos (by norm_num : (0:ℚ) < 1/2)]; norm_num)).2

/-- C6 counterexample: `condense_text` on a 10-character input with limit 5
returns the 8-character string `"abcde..."` — more than 5 characters. -/
theorem c6_counterexample_truncation_exceeds_limit :
    condense_text (Option.some "abcdefghij") 5 = "abcde..." ∧
    (condense_text (Option.some "abcdefghij") 5).length = 8 ∧
    (decide ((condense_text (Option.some "abcdefghij") 5).length ≤ 5)) = false := by
  refine ⟨rfl, rfl, rfl⟩

/-- With enough fuel (one unit per consumed character) the first
`condense_text` pass eliminates every newline: runs containing `'\n'` are
replaced by `" | "` and all other emitted characters are non-newline. -/
theorem subNewlineRunsGo_no_newline :
    ∀ (fuel : ℕ) (l : List Char), l.length ≤ fuel → '\n' ∉ subNewlineRunsGo fuel l := by
  intro fuel
  induction fuel with
  | zero =>
    intro l h
    rw [List.length_eq_zero.mp (Nat.le_zero.mp h)]
    simp [subNewlineRunsGo]
  | succ fuel ih =>
    intro l h
    match l with
    | [] => simp [subNewlineRunsGo]
    | c :: rest =>
      simp only [subNewlineRunsGo]
      by_cases hc : isPySpace c = true
      · rw [if_pos hc]
        intro hmem
        rcases List.mem_append.mp hmem with h1 | h2
        · by_cases hrun : (c :: rest.takeWhile isPySpace).contains '\n' = true
          · rw [if_pos hrun] at h1
            exact absurd h1 (by decide)
          · rw [if_neg hrun] at h1
            exact hrun (List.elem_eq_true_of_mem h1)
        · have hlen : (rest.dropWhile isPySpace).length ≤ fuel :=
            le_trans (dropWhile_length_le _ _) (by simpa using Nat.le_of_succ_le_succ h)
          exact ih _ hlen h2
      · rw [if_neg hc]
        intro hmem
        rcases List.mem_cons.mp hmem with h1 | h2
        · exact hc (h1 ▸ (by decide : isPySpace '\n' = true))
        · exact ih rest (by simpa using Nat.le_of_succ_le_succ h) h2

/-- Every character emitted by the whitespace-collapsing pass is a space or
came from the input. -/
theorem mem_subSpaceRuns :
    ∀ (l : List Char) (b : Bool) (c : Char), c ∈ subSpaceRuns l b → c = ' ' ∨ c ∈ l := by
  intro l
  induction l with
  | nil => intro b c h; simp [subSpaceRuns] at h
  | cons a rest ih =>
    intro b c h
    simp only [subSpaceRuns] at h
    by_cases ha : isPySpace a = true
    · rw [if_pos ha] at h
      by_cases hb : b = true
      · rw [if_pos hb] at h
        rcases ih true c h with h1 | h2
        · exact Or.inl h1
        · exact Or.inr (List.mem_cons_of_mem _ h2)
      · rw [if_neg hb] at h
        rcases List.mem_cons.mp h with h1 | h1
        · exact Or.inl h1
        · rcases ih true c h1 with h2 | h3
          · exact Or.inl h2
          · exact Or.inr (List.mem_cons_of_mem _ h3)
    · rw [if_neg ha] at h
      rcases List.mem_cons.mp h with h1 | h1
      · exact Or.inr (h1 ▸ List.mem_cons_self a rest)
      · rcases ih false c h1 with h2 | h3
        · exact Or.inl h2
        · exact Or.inr (List.mem_cons_of_mem _ h3)

/-- Stripping only removes characters. -/
theorem mem_pyStrip (l : List Char) (c : Char) (h : c ∈ pyStrip l) : c ∈ l := by
  simp only [pyStrip, List.mem_reverse] at h
  have h3 : c ∈ (l.dropWhile isPySpace).reverse := (List.dropWhile_sublist _).subset h
  exact (List.dropWhile_sublist _).subset (List.mem_reverse.mp h3)

/-- Every character of the truncation output came from the input or is one of
the ellipsis dots. -/
theorem mem_regexTruncate (l : List Char) (limit : ℕ) (c : Char)
    (h : c ∈ regexTruncate l limit) : c ∈ l ∨ c = '.' := by
  unfold regexTruncate at h
  split at h
  · split at h
    · simp at h
      exact Or.inr h
    · simp at h
      exact Or.inr h
  · split at h
    · rcases List.mem_append.mp h with h1 | h1
      · exact Or.inl (List.take_subset _ _ h1)
      · simp at h1
        exact Or.inr h1
    · exact Or.inl h

/-- C6 amended: the result of `condense_text` contains no newline (newline
runs were collapsed into `" | "` separators), and for `limit ≥ 1` it has at
most `limit + 3` characters — the kept `limit` characters plus the
three-character `"..."` ellipsis. -/
theorem c6_amended_length_bound (text : Option String) (limit : ℕ) :
    ('\n' ∉ (condense_text text limit).data) ∧
    (1 ≤ limit → (condense_text text limit).length ≤ limit + 3) := by
  constructor
  · intro hmem
    simp only [condense_text] at hmem
    rcases mem_regexTruncate _ _ _ hmem with h | h
    · rcases mem_subSpaceRuns _ _ _ (mem_pyStrip _ _ h) with h1 | h1
      · exact absurd h1 (by decide)
      · exact subNewlineRunsGo_no_newline _ _ le_rfl (mem_pyStrip _ _ h1)
    · exact absurd h (by decide)
  · intro hl
    simp only [condense_text]
    show (regexTruncate _ limit).length ≤ limit + 3
    unfold regexTruncate
    split
    · omega
    · split
      · rename_i hyes
        rw [List.length_append, List.length_take, min_eq_left hyes]
        have h3 : ("...".data).length = 3 := rfl
        omega
      · rename_i hno
        omega

/-- Witness for C6 at limit 5 on a 10-character input. -/
theorem c6_amended_witness :
    (condense_text (Option.some "abcdefghij") 5).length ≤ 5 + 3 :=
  (c6_amended_length_bound (Option.some "abcdefghij") 5).2 (by norm_num)

/-- Shape of the excerpt loop: filtering `enumFrom s L` to the 1-based index
window `[lo, hi)` yields exactly the existing lines with numbers in
`[max lo (s+1), min hi (s+L.length+1))`, in order. -/
theorem enumFrom_filterMap_window (g : ℕ → String → String) (lo hi : ℕ) :
    ∀ (L : List String) (s : ℕ),
      ((List.enumFrom s L).filterMap fun p =>
          if lo ≤ p.1 + 1 ∧ p.1 + 1 < hi then Option.some (g (p.1 + 1) p.2)
          else Option.none) =
        (List.range' (max lo (s + 1)) (min hi (s + L.length + 1) - max lo (s + 1))).map
          (fun j => g j (L.getD (j - 1 - s) "")) := by
  intro L
  induction L with
  | nil =>
    intro s
    have h0 : min hi (s + ([] : List String).length + 1) - max lo (s + 1) = 0 := by
      simp only [List.length_nil]
      omega
    rw [h0]
    simp [List.enumFrom]
  | cons x xs ih =>
    intro s
    rw [List.enumFrom_cons]
    by_cases hc : lo ≤ s + 1 ∧ s + 1 < hi
    · have hf : (fun p => if lo ≤ p.1 + 1 ∧ p.1 + 1 < hi then
          Option.some (g (p.1 + 1) p.2) else Option.none) ((s, x) : ℕ × String) =
          Option.some (g (s + 1) x) := by
        show (if lo ≤ s + 1 ∧ s + 1 < hi then Option.some (g (s + 1) x) else Option.none) =
          Option.some (g (s + 1) x)
        rw [if_pos hc]
      rw [@List.filterMap_cons_some _ _
        (fun p => if lo ≤ p.1 + 1 ∧ p.1 + 1 < hi then Option.some (g (p.1 + 1) p.2)
          else Option.none)
        ((s, x)) (List.enumFrom (s + 1) xs) (g (s + 1) x) hf, ih (s + 1)]
      have hmax : max lo (s + 1) = s + 1 := by omega
      rw [hmax]
      have hcount : min hi (s + (x :: xs).length + 1) - (s + 1) =
          (min hi (s + 1 + xs.length + 1) - max lo (s + 2)) + 1 := by
        simp only [List.length_cons]
        omega
      rw [hcount, List.range'_succ, List.map_cons]
      congr 1
      · have hidx : s + 1 - 1 - s = 0 := by omega
        rw [hidx, List.getD_cons_zero]
      · have hmax2 : max lo (s + 2) = s + 2 := by omega
        rw [hmax2]
        have hss : s + 1 + 1 = s + 2 := rfl
        rw [hss]
        apply List.map_congr_left
        intro j hj
        have hjge : s + 2 ≤ j := (List.mem_range'_1.mp hj).1
        have hidx : j - 1 - s = (j - 1 - (s + 1)) + 1 := by omega
        rw [hidx, List.getD_cons_succ]
    · have hf : (fun p => if lo ≤ p.1 + 1 ∧ p.1 + 1 < hi then
          Option.some (g (p.1 + 1) p.2) else Option.none) ((s, x) : ℕ × String) =
          Option.none := by
        show (if lo ≤ s + 1 ∧ s + 1 < hi then Option.some (g (s + 1) x) else Option.none) =
          Option.none
        rw [if_neg hc]
      rw [@List.filterMap_cons_none _ _
        (fun p => if lo ≤ p.1 + 1 ∧ p.1 + 1 < hi then Option.some (g (p.1 + 1) p.2)
          else Option.none)
        ((s, x)) (List.enumFrom (s + 1) xs) hf, ih (s + 1)]
      by_cases h1 : lo ≤ s + 1
      · have c1 : min hi (s + 1 + xs.length + 1) - max lo (s + 2) = 0 := by omega
        have c2 : min hi (s + (x :: xs).length + 1) - max lo (s + 1) = 0 := by
          simp only [List.length_cons]
          omega
        rw [c1, c2]
        simp
      · have hm1 : max lo (s + 1) = lo := by omega
        have hm2 : max lo (s + 2) = lo := by omega
        have hc2 : min hi (s + (x :: xs).length + 1) = min hi (s + 1 + xs.length + 1) := by
          simp only [List.length_cons]
          omega
        rw [hm1, hm2, hc2]
        apply List.map_congr_left
        intro j hj
        have hjge : lo ≤ j := (List.mem_range'_1.mp hj).1
        have hidx : j - 1 - s = (j - 1 - (s + 1)) + 1 := by omega
        rw [hidx, List.getD_cons_succ]

/-- C7: on a completed query with errors, when the first message contains a
`[line:col]` pattern the raised failure carries all messages joined by
newlines and the printed excerpt is exactly the existing 1-based source lines
in the inclusive window `[ln-5, ln+5]` — i.e. numbers
`max (ln-5) 1 … min (ln+5) total` — with the reported line split at the
reported column and the remainder highlighted; when the pattern is absent the
excerpt is skipped entirely and the failure is still raised. -/
theorem c7_q_error_excerpt {α : Type} (query : String) (r : QueryResult α)
    (m0 : String) (rest : List String) (hm : r.errors = m0 :: rest) :
    (∀ ln pn, findBracket m0.data = Option.some (ln, pn) →
      q_outcome query r = QOutcome.failure (String.intercalate "\n" r.errors)
        ((List.range' (max (ln - 5) 1)
            (min (ln + 6) ((pyLines query).length + 1) - max (ln - 5) 1)).map
          (fun j => renderLine j ((pyLines query).getD (j - 1) "") ln pn))) ∧
    (findBracket m0.data = Option.none →
      q_outcome query r = QOutcome.failure (String.intercalate "\n" r.errors) []) ∧
    (∀ line, renderLine 12 line 12 5 =
      "12: " ++ line.take 4 ++ "\x1b[31m" ++ line.drop 4 ++ "\x1b[0m") := by
  have hne : r.errors.isEmpty = false := by rw [hm]; rfl
  have hhead : r.errors.headD "" = m0 := by rw [hm]; rfl
  refine ⟨fun ln pn hf => ?_, fun hf => ?_, fun line => ?_⟩
  · simp only [q_outcome, hne, Bool.false_eq_true, if_false, hhead, hf]
    congr 1
    rw [excerptLines,
      show (pyLines query).enum = List.enumFrom 0 (pyLines query) from rfl,
      enumFrom_filterMap_window (fun j line => renderLine j line ln pn) (ln - 5) (ln + 6)
        (pyLines query) 0]
    simp only [Nat.zero_add, Nat.sub_zero]
  · simp only [q_outcome, hne, Bool.false_eq_true, if_false, hhead, hf]
  · show (if (12 : ℕ) = 12 then toString (12 : ℕ) ++ ": " ++ pyTake line (((5 : ℕ) : ℤ) - 1)
        ++ "\x1b[31m" ++ pyDrop line (((5 : ℕ) : ℤ) - 1) ++ "\x1b[0m"
      else toString (12 : ℕ) ++ ": " ++ line) =
      "12: " ++ line.take 4 ++ "\x1b[31m" ++ line.drop 4 ++ "\x1b[0m"
    rw [if_pos rfl, show (((5 : ℕ) : ℤ) - 1) = (4 : ℤ) from rfl]
    unfold pyTake pyDrop
    rw [if_pos (by norm_num : (0 : ℤ) ≤ 4), if_pos (by norm_num : (0 : ℤ) ≤ 4),
      show (4 : ℤ).toNat = 4 from rfl]
    rfl

/-- Witness for C7: a 13-line query with error `"boom [12:5]"` prints exactly
lines 7–13 with line 12 split at column 5; a message without the pattern
skips the excerpt; the splitting clause at a concrete line. -/
theorem c7_q_error_excerpt_witness :
    q_outcome "a\nb\nc\nd\ne\nf\ng\nh\ni\nj\nk\nl\nm"
        ({ errors := ["boom [12:5]"], destination := Option.none,
           ddl_target_table := Option.none, dml_stats := Option.none,
           dataframe := 0 } : QueryResult ℕ) =
      QOutcome.failure "boom [12:5]"
        ["7: g", "8: h", "9: i", "10: j", "11: k", "12: l\x1b[31m\x1b[0m", "13: m"] ∧
    q_outcome "SELECT 1"
        ({ errors := ["no location info"], destination := Option.none,
           ddl_target_table := Option.none, dml_stats := Option.none,
           dataframe := 0 } : QueryResult ℕ) =
      QOutcome.failure "no location info" [] ∧
    renderLine 12 "hello world" 12 5 = "12: hell\x1b[31mo world\x1b[0m" := by
  refine ⟨?_, ?_, ?_⟩
  · have h := (c7_q_error_excerpt "a\nb\nc\nd\ne\nf\ng\nh\ni\nj\nk\nl\nm"
      ({ errors := ["boom [12:5]"], destination := Option.none,
         ddl_target_table := Option.none, dml_stats := Option.none,
         dataframe := 0 } : QueryResult ℕ)
      "boom [12:5]" [] rfl).1 12 5 rfl
    rw [h]
    rfl
  · exact (c7_q_error_excerpt "SELECT 1"
      ({ errors := ["no location info"], destination := Option.none,
         ddl_target_table := Option.none, dml_stats := Option.none,
         dataframe := 0 } : QueryResult ℕ) "no location info" [] rfl).2.1 rfl
  · have h := (c7_q_error_excerpt "SELECT 1"
      ({ errors := ["no location info"], destination := Option.none,
         ddl_target_table := Option.none, dml_stats := Option.none,
         dataframe := 0 } : QueryResult ℕ) "no location info" [] rfl).2.2 "hello world"
    rw [h]
    rfl

end GColab
